import Mathlib

/-!
Verification of the Costory Terraform provider's API client layer
(`internal/costoryapi` of costory-io/terraform-provider-costory).

This file gives a shallow embedding of the most recent revision of the
client (package `costoryapi`: `client.go`, `routes.go`): the JSON wire
model, the retrying transport primitive `doJSON`, the per-struct
encode/decode behaviour of Go's `encoding/json` on the client's request
and response types, the exported domain operations, and the AWS resource
level `Delete` handler from `internal/provider/billingdatasource`.

Modelling conventions:
- Machine integers are `Nat` (statuses, attempt counters, durations in
  milliseconds); no overflow is reachable at these magnitudes.
- The `httpDoer` (Go's `http.Client.Do`) is abstracted as a function from
  the attempt index to either a transport error or an HTTP response: the
  request sent by `doJSON` is identical on every attempt (same method,
  path, headers, payload bytes), so a backend/transport is fully described
  by its per-attempt answer to that fixed request.  Read/close errors of
  the response body are not distinguished from `Do` errors.
- `encoding/json` is embedded per struct type, following the field tags
  of the source (`omitempty` on optional pointer fields, exact-name key
  matching: no two keys used by this client differ only by letter case,
  so Go's case-insensitive fallback never fires here).
- Go `nil` slices and `nil` pointers are `Option.none`; a JSON `null`
  assigns `none` to pointer/slice fields and leaves string fields as-is,
  as `encoding/json` does.
- Backoff durations are recorded (in milliseconds) rather than slept;
  context cancellation is not modelled (no claim depends on it).
- Two Go field names are reserved words here and are renamed, with the
  JSON keys unchanged: `Type` is rendered `Typ`, and the AWS `Prefix`
  field is rendered `BucketPrefix`.
-/

/-- A JSON value, the wire-level data model. -/
inductive JSON where
  | null : JSON
  | bool : Bool → JSON
  | num : Int → JSON
  | str : String → JSON
  | arr : List JSON → JSON
  | obj : List (String × JSON) → JSON

/-- Escape a string for JSON output (quote and backslash). -/
def jsonEscape (s : String) : String :=
  s.foldl (fun acc c =>
    if c = '"' then acc ++ "\\\""
    else if c = '\\' then acc ++ "\\\\"
    else acc.push c) ""

mutual

/-- Canonical rendering of a JSON value, as Go's `json.Marshal` prints it
(object fields in struct order, no spaces).  String escaping is modelled
for the quote and backslash; other escapes do not occur in this
development's inputs. -/
def JSON.render : JSON → String
  | JSON.null => "null"
  | JSON.bool true => "true"
  | JSON.bool false => "false"
  | JSON.num n => toString n
  | JSON.str s => "\"" ++ jsonEscape s ++ "\""
  | JSON.arr xs => "[" ++ JSON.renderList xs ++ "]"
  | JSON.obj fs => "\x7b" ++ JSON.renderFields fs ++ "\x7d"

/-- Comma-separated rendering of array elements. -/
def JSON.renderList : List JSON → String
  | [] => ""
  | [x] => JSON.render x
  | x :: y :: rest => JSON.render x ++ "," ++ JSON.renderList (y :: rest)

/-- Comma-separated rendering of object fields. -/
def JSON.renderFields : List (String × JSON) → String
  | [] => ""
  | [(k, v)] => "\"" ++ jsonEscape k ++ "\":" ++ JSON.render v
  | (k, v) :: f :: rest =>
      "\"" ++ jsonEscape k ++ "\":" ++ JSON.render v ++ "," ++ JSON.renderFields (f :: rest)

end

/-- The raw bytes of an HTTP response body: either the serialization of a
JSON value, or text that is not valid JSON (`json.Unmarshal` fails on it).
The empty body is `text ""`. -/
inductive BodyWire where
  | jsonVal : JSON → BodyWire
  | text : String → BodyWire

/-- The raw body text, as `string(body)` reads it in Go. -/
def BodyWire.rawString : BodyWire → String
  | BodyWire.jsonVal v => v.render
  | BodyWire.text s => s

/-- The whitespace set of Go's `strings.TrimSpace` (`unicode.IsSpace` on
the Latin-1 range). -/
def goIsSpace (c : Char) : Bool :=
  c == ' ' || c == '\t' || c == '\n' || c == '\x0b' || c == '\x0c' || c == '\r' ||
    c == '\x85' || c == '\xa0'

/-- Go's `strings.TrimSpace`: drop leading and trailing whitespace. -/
def trimSpace (s : String) : String :=
  String.mk (((s.data.dropWhile goIsSpace).reverse.dropWhile goIsSpace).reverse)

/-! ## Client data model (package `costoryapi`, most recent revision)

Struct types from `client.go`.  Go `*bool` / `*string` / `[]string`
(nilable) fields are `Option`s; plain `string` fields are `String`. -/

/-- `maxRetryAttempts = 4` from `client.go`. -/
def maxRetryAttempts : Nat := 4

/-- `ServiceAccountResponse`: the normalized service-account payload. -/
structure ServiceAccountResponse where
  ServiceAccount : String
  SubIDs : Option (List String)
deriving Repr, DecidableEq

/-- `serviceAccountAPIResponse`: the raw decode target, with one field per
accepted key (`service_account`, `serviceAccount`, `serviceAccountEmail`,
`sub_ids`, `subIds`). -/
structure serviceAccountAPIResponse where
  ServiceAccount : String
  ServiceAccountCamel : String
  ServiceAccountEmail : String
  SubIDs : Option (List String)
  SubIDsCamel : Option (List String)
deriving Repr, DecidableEq

/-- The Go zero value of `serviceAccountAPIResponse`. -/
def serviceAccountAPIResponseZero : serviceAccountAPIResponse :=
  ⟨"", "", "", none, none⟩

/-- `GCPBillingDatasourceRequest`: Terraform input for create/validate. -/
structure GCPBillingDatasourceRequest where
  Name : String
  BQURI : String
  IsDetailedBilling : Option Bool
  StartDate : Option String
  EndDate : Option String
deriving Repr, DecidableEq

/-- `GCPBillingDatasource`: the normalized datasource payload. -/
structure GCPBillingDatasource where
  ID : String
  Typ : String
  Status : Option String
  Name : String
  BQURI : String
  IsDetailedBilling : Option Bool
  StartDate : Option String
  EndDate : Option String
deriving Repr, DecidableEq

/-- `AWSBillingDatasourceRequest`: Terraform input for create/validate.
The Go field `Prefix` is named `BucketPrefix` here (the bare word is
reserved in this development); it is the CUR object prefix. -/
structure AWSBillingDatasourceRequest where
  Name : String
  BucketName : String
  RoleARN : String
  BucketPrefix : String
  EKSSplitDataEnabled : Option Bool
  StartDate : Option String
  EndDate : Option String
  EKSSplit : Option Bool
deriving Repr, DecidableEq

/-- `AWSBillingDatasource`: the normalized datasource payload.  As above,
Go's `Prefix` field is rendered `BucketPrefix`. -/
structure AWSBillingDatasource where
  ID : String
  Typ : String
  Status : Option String
  Name : String
  BucketName : String
  RoleARN : String
  BucketPrefix : String
  EKSSplitDataEnabled : Option Bool
  StartDate : Option String
  EndDate : Option String
  EKSSplit : Option Bool
deriving Repr, DecidableEq

/-- `gcpBillingDatasourceAPIRequest`: wire shape of a GCP create/validate
request; keys `type`, `name`, `bqTablePath`, then `isDetailedBilling`,
`startDate`, `endDate` each tagged `omitempty`. -/
structure gcpBillingDatasourceAPIRequest where
  Typ : String
  Name : String
  BQTablePath : String
  IsDetailedBilling : Option Bool
  StartDate : Option String
  EndDate : Option String
deriving Repr, DecidableEq

/-- `gcpBillingDatasourceAPIResponse`: decode target of a GCP datasource
body; keys `id`, `type`, `status`, `name`, `bqUri`, `isDetailedBilling`,
`startDate`, `endDate`. -/
structure gcpBillingDatasourceAPIResponse where
  ID : String
  Typ : String
  Status : Option String
  Name : String
  BQURI : String
  IsDetailedBilling : Option Bool
  StartDate : Option String
  EndDate : Option String
deriving Repr, DecidableEq

/-- The Go zero value of `gcpBillingDatasourceAPIResponse`. -/
def gcpBillingDatasourceAPIResponseZero : gcpBillingDatasourceAPIResponse :=
  ⟨"", "", none, "", "", none, none, none⟩

/-- `awsBillingDatasourceAPIRequest`: wire shape of an AWS create/validate
request; keys `type`, `name`, `bucketName`, `roleArn`, `prefix`, then
`eksSplitDataEnabled`, `startDate`, `endDate`, `eksSplit` each tagged
`omitempty`.  Go's `Prefix` field is rendered `BucketPrefix`. -/
structure awsBillingDatasourceAPIRequest where
  Typ : String
  Name : String
  BucketName : String
  RoleARN : String
  BucketPrefix : String
  EKSSplitDataEnabled : Option Bool
  StartDate : Option String
  EndDate : Option String
  EKSSplit : Option Bool
deriving Repr, DecidableEq

/-- `awsBillingDatasourceAPIResponse`: decode target of an AWS datasource
body; keys `id`, `type`, `status`, `name`, `bucketName`, `roleArn`,
`prefix`, `eksSplitDataEnabled`, `startDate`, `endDate`, `eksSplit`. -/
structure awsBillingDatasourceAPIResponse where
  ID : String
  Typ : String
  Status : Option String
  Name : String
  BucketName : String
  RoleARN : String
  BucketPrefix : String
  EKSSplitDataEnabled : Option Bool
  StartDate : Option String
  EndDate : Option String
  EKSSplit : Option Bool
deriving Repr, DecidableEq

/-- The Go zero value of `awsBillingDatasourceAPIResponse`. -/
def awsBillingDatasourceAPIResponseZero : awsBillingDatasourceAPIResponse :=
  ⟨"", "", none, "", "", "", "", none, none, none, none⟩

/-- `apiErrorResponse`: the structured error body `{error, reason}`. -/
structure apiErrorResponse where
  ErrorField : String
  Reason : String
deriving Repr, DecidableEq

/-- The Go zero value of `apiErrorResponse`. -/
def apiErrorResponseZero : apiErrorResponse := ⟨"", ""⟩

/-! ## `encoding/json` behaviour on the client's types

`json.Unmarshal` walks the keys of a JSON object in order, assigning each
key that matches a struct field tag (later duplicates overwrite), ignoring
unknown keys, and failing on a type mismatch; unmarshalling the JSON value
`null` into a struct leaves the (zero-valued) target unchanged;
unmarshalling a non-object, non-null top level into a struct fails. -/

/-- Assign a JSON value to a Go `string` field: `null` leaves the current
value, a JSON string overwrites it, anything else is a type error. -/
def assignString (old : String) : JSON → Option String
  | JSON.null => some old
  | JSON.str s => some s
  | _ => none

/-- Assign a JSON value to a Go `*string` field: `null` sets the pointer
to nil, a JSON string allocates, anything else is a type error. -/
def assignOptString (_old : Option String) : JSON → Option (Option String)
  | JSON.null => some none
  | JSON.str s => some (some s)
  | _ => none

/-- Assign a JSON value to a Go `*bool` field. -/
def assignOptBool (_old : Option Bool) : JSON → Option (Option Bool)
  | JSON.null => some none
  | JSON.bool b => some (some b)
  | _ => none

/-- Decode a JSON array whose elements must all be strings. -/
def decodeStringArray : List JSON → Option (List String)
  | [] => some []
  | JSON.str s :: rest => (decodeStringArray rest).map (fun l => s :: l)
  | _ => none

/-- Assign a JSON value to a Go `[]string` field: `null` sets the slice to
nil, an array of strings overwrites it, anything else is a type error. -/
def assignStringSlice (_old : Option (List String)) : JSON → Option (Option (List String))
  | JSON.null => some none
  | JSON.arr xs => (decodeStringArray xs).map some
  | _ => none

/-- One key/value step of unmarshalling into `apiErrorResponse`
(keys `error` and `reason`). -/
def apiErrorResponseStep (acc : apiErrorResponse) (kv : String × JSON) :
    Option apiErrorResponse :=
  if kv.fst = "error" then
    (assignString acc.ErrorField kv.snd).map (fun v => { acc with ErrorField := v })
  else if kv.fst = "reason" then
    (assignString acc.Reason kv.snd).map (fun v => { acc with Reason := v })
  else some acc

/-- `json.Unmarshal(body, &apiErr)` for `apiErrorResponse`. -/
def unmarshalApiError : JSON → Option apiErrorResponse
  | JSON.null => some apiErrorResponseZero
  | JSON.obj fields => fields.foldlM apiErrorResponseStep apiErrorResponseZero
  | _ => none

/-- One key/value step of unmarshalling into `serviceAccountAPIResponse`. -/
def serviceAccountStep (acc : serviceAccountAPIResponse) (kv : String × JSON) :
    Option serviceAccountAPIResponse :=
  if kv.fst = "service_account" then
    (assignString acc.ServiceAccount kv.snd).map (fun v => { acc with ServiceAccount := v })
  else if kv.fst = "serviceAccount" then
    (assignString acc.ServiceAccountCamel kv.snd).map (fun v => { acc with ServiceAccountCamel := v })
  else if kv.fst = "serviceAccountEmail" then
    (assignString acc.ServiceAccountEmail kv.snd).map (fun v => { acc with ServiceAccountEmail := v })
  else if kv.fst = "sub_ids" then
    (assignStringSlice acc.SubIDs kv.snd).map (fun v => { acc with SubIDs := v })
  else if kv.fst = "subIds" then
    (assignStringSlice acc.SubIDsCamel kv.snd).map (fun v => { acc with SubIDsCamel := v })
  else some acc

/-- `json.Unmarshal(body, &out)` for `serviceAccountAPIResponse`. -/
def unmarshalServiceAccount : JSON → Option serviceAccountAPIResponse
  | JSON.null => some serviceAccountAPIResponseZero
  | JSON.obj fields => fields.foldlM serviceAccountStep serviceAccountAPIResponseZero
  | _ => none

/-- One key/value step of unmarshalling into `gcpBillingDatasourceAPIResponse`. -/
def gcpResponseStep (acc : gcpBillingDatasourceAPIResponse) (kv : String × JSON) :
    Option gcpBillingDatasourceAPIResponse :=
  if kv.fst = "id" then
    (assignString acc.ID kv.snd).map (fun v => { acc with ID := v })
  else if kv.fst = "type" then
    (assignString acc.Typ kv.snd).map (fun v => { acc with Typ := v })
  else if kv.fst = "status" then
    (assignOptString acc.Status kv.snd).map (fun v => { acc with Status := v })
  else if kv.fst = "name" then
    (assignString acc.Name kv.snd).map (fun v => { acc with Name := v })
  else if kv.fst = "bqUri" then
    (assignString acc.BQURI kv.snd).map (fun v => { acc with BQURI := v })
  else if kv.fst = "isDetailedBilling" then
    (assignOptBool acc.IsDetailedBilling kv.snd).map (fun v => { acc with IsDetailedBilling := v })
  else if kv.fst = "startDate" then
    (assignOptString acc.StartDate kv.snd).map (fun v => { acc with StartDate := v })
  else if kv.fst = "endDate" then
    (assignOptString acc.EndDate kv.snd).map (fun v => { acc with EndDate := v })
  else some acc

/-- `json.Unmarshal(body, &out)` for `gcpBillingDatasourceAPIResponse`. -/
def unmarshalGCPResponse : JSON → Option gcpBillingDatasourceAPIResponse
  | JSON.null => some gcpBillingDatasourceAPIResponseZero
  | JSON.obj fields => fields.foldlM gcpResponseStep gcpBillingDatasourceAPIResponseZero
  | _ => none

/-- One key/value step of unmarshalling into `awsBillingDatasourceAPIResponse`. -/
def awsResponseStep (acc : awsBillingDatasourceAPIResponse) (kv : String × JSON) :
    Option awsBillingDatasourceAPIResponse :=
  if kv.fst = "id" then
    (assignString acc.ID kv.snd).map (fun v => { acc with ID := v })
  else if kv.fst = "type" then
    (assignString acc.Typ kv.snd).map (fun v => { acc with Typ := v })
  else if kv.fst = "status" then
    (assignOptString acc.Status kv.snd).map (fun v => { acc with Status := v })
  else if kv.fst = "name" then
    (assignString acc.Name kv.snd).map (fun v => { acc with Name := v })
  else if kv.fst = "bucketName" then
    (assignString acc.BucketName kv.snd).map (fun v => { acc with BucketName := v })
  else if kv.fst = "roleArn" then
    (assignString acc.RoleARN kv.snd).map (fun v => { acc with RoleARN := v })
  else if kv.fst = "prefix" then
    (assignString acc.BucketPrefix kv.snd).map (fun v => { acc with BucketPrefix := v })
  else if kv.fst = "eksSplitDataEnabled" then
    (assignOptBool acc.EKSSplitDataEnabled kv.snd).map (fun v => { acc with EKSSplitDataEnabled := v })
  else if kv.fst = "startDate" then
    (assignOptString acc.StartDate kv.snd).map (fun v => { acc with StartDate := v })
  else if kv.fst = "endDate" then
    (assignOptString acc.EndDate kv.snd).map (fun v => { acc with EndDate := v })
  else if kv.fst = "eksSplit" then
    (assignOptBool acc.EKSSplit kv.snd).map (fun v => { acc with EKSSplit := v })
  else some acc

/-- `json.Unmarshal(body, &out)` for `awsBillingDatasourceAPIResponse`. -/
def unmarshalAWSResponse : JSON → Option awsBillingDatasourceAPIResponse
  | JSON.null => some awsBillingDatasourceAPIResponseZero
  | JSON.obj fields => fields.foldlM awsResponseStep awsBillingDatasourceAPIResponseZero
  | _ => none

/-- Lift a JSON-level unmarshal to raw body bytes: unparseable text (and
the empty body) makes `json.Unmarshal` fail. -/
def bodyUnmarshal {α : Type} (decode : JSON → Option α) : BodyWire → Option α
  | BodyWire.jsonVal v => decode v
  | BodyWire.text _ => none

/-! ## Normalization helpers and error formatting (`client.go`) -/

/-- `firstNonEmptyString(values...)`: the first non-empty string, else "". -/
def firstNonEmptyString : List String → String
  | [] => ""
  | value :: rest => if value ≠ "" then value else firstNonEmptyString rest

/-- `firstStringSlice(values...)`: the first non-nil slice (copied), else
nil. -/
def firstStringSlice : List (Option (List String)) → Option (List String)
  | [] => none
  | some value :: _ => some value
  | none :: rest => firstStringSlice rest

/-- Go's `http.StatusText`: the canonical phrase for an HTTP status code,
"" for unknown codes. -/
def statusText : Nat → String
  | 100 => "Continue"
  | 101 => "Switching Protocols"
  | 102 => "Processing"
  | 103 => "Early Hints"
  | 200 => "OK"
  | 201 => "Created"
  | 202 => "Accepted"
  | 203 => "Non-Authoritative Information"
  | 204 => "No Content"
  | 205 => "Reset Content"
  | 206 => "Partial Content"
  | 207 => "Multi-Status"
  | 208 => "Already Reported"
  | 226 => "IM Used"
  | 300 => "Multiple Choices"
  | 301 => "Moved Permanently"
  | 302 => "Found"
  | 303 => "See Other"
  | 304 => "Not Modified"
  | 305 => "Use Proxy"
  | 307 => "Temporary Redirect"
  | 308 => "Permanent Redirect"
  | 400 => "Bad Request"
  | 401 => "Unauthorized"
  | 402 => "Payment Required"
  | 403 => "Forbidden"
  | 404 => "Not Found"
  | 405 => "Method Not Allowed"
  | 406 => "Not Acceptable"
  | 407 => "Proxy Authentication Required"
  | 408 => "Request Timeout"
  | 409 => "Conflict"
  | 410 => "Gone"
  | 411 => "Length Required"
  | 412 => "Precondition Failed"
  | 413 => "Request Entity Too Large"
  | 414 => "Request URI Too Long"
  | 415 => "Unsupported Media Type"
  | 416 => "Requested Range Not Satisfiable"
  | 417 => "Expectation Failed"
  | 418 => "I\x27m a teapot"
  | 421 => "Misdirected Request"
  | 422 => "Unprocessable Entity"
  | 423 => "Locked"
  | 424 => "Failed Dependency"
  | 425 => "Too Early"
  | 426 => "Upgrade Required"
  | 428 => "Precondition Required"
  | 429 => "Too Many Requests"
  | 431 => "Request Header Fields Too Large"
  | 451 => "Unavailable For Legal Reasons"
  | 500 => "Internal Server Error"
  | 501 => "Not Implemented"
  | 502 => "Bad Gateway"
  | 503 => "Service Unavailable"
  | 504 => "Gateway Timeout"
  | 505 => "HTTP Version Not Supported"
  | 506 => "Variant Also Negotiates"
  | 507 => "Insufficient Storage"
  | 508 => "Loop Detected"
  | 510 => "Not Extended"
  | 511 => "Network Authentication Required"
  | _ => ""

/-- The message of `unexpectedStatusError(statusCode, body)`: try the
structured `{error, reason}` shape first; if it decodes and a trimmed
field is non-empty, format `error=` and `reason=`; otherwise use the
trimmed raw body text, or the HTTP status phrase when that is empty. -/
def unexpectedStatusMessage (statusCode : Nat) (body : BodyWire) : String :=
  let fallback :=
    let message := trimSpace body.rawString
    let message := if message = "" then statusText statusCode else message
    "unexpected status code " ++ toString statusCode ++ ": " ++ message
  match bodyUnmarshal unmarshalApiError body with
  | some apiErr =>
      let e := trimSpace apiErr.ErrorField
      let r := trimSpace apiErr.Reason
      if e ≠ "" ∨ r ≠ "" then
        "unexpected status code " ++ toString statusCode ++ ": error=" ++ e ++ " reason=" ++ r
      else fallback
  | none => fallback

/-! ## The transport primitive `doJSON` -/

/-- An HTTP response as `doJSON` observes it after reading the body. -/
structure HTTPResponse where
  statusCode : Nat
  body : BodyWire

/-- The abstracted `httpDoer`: for each attempt index, either a transport
error (`Do`/read/close failure) or a response to the fixed request. -/
def Doer : Type := Nat → Except String HTTPResponse

/-- Errors produced by the client, as distinguishable Go error values.
`errNotFound` is the sentinel `ErrNotFound`; `unexpectedStatus` carries
the formatted message of `unexpectedStatusError`; `decodeBody` stands for
a JSON decode failure wrapped in "decode response body: %w";
`createMissingID` is `errors.New("create response did not include
datasource id")`. -/
inductive ClientError where
  | executeRequest : String → ClientError
  | retriesExhausted : ClientError
  | decodeBody : ClientError
  | unexpectedStatus : String → ClientError
  | errNotFound : ClientError
  | createMissingID : ClientError
deriving Repr, DecidableEq

/-- The observable outcome of one `doJSON` call: the returned
`(body, statusCode)` or error, the number of HTTP attempts performed, and
the backoff waits (milliseconds) performed between attempts, in order. -/
structure DoJSONRun where
  outcome : Except ClientError (BodyWire × Nat)
  attempts : Nat
  waits : List Nat

/-- The backoff of `waitForRetry(ctx, attempt)` in milliseconds:
`time.Duration(1<<attempt) * 500 * time.Millisecond`. -/
def backoffMs (attempt : Nat) : Nat := (1 <<< attempt) * 500

/-- The retry loop body of `doJSON`: `remaining` counts loop iterations
left out of `maxRetryAttempts` (`for attempt := range maxRetryAttempts`),
`attempt` is the current index.  A 5xx status with `attempt <
maxRetryAttempts-1` sleeps a backoff and retries; any other status is
returned immediately with its body. -/
def doJSONLoop (doer : Doer) : Nat → Nat → DoJSONRun
  | 0, _ => ⟨Except.error ClientError.retriesExhausted, 0, []⟩
  | remaining + 1, attempt =>
    match doer attempt with
    | Except.error e => ⟨Except.error (ClientError.executeRequest e), 1, []⟩
    | Except.ok resp =>
      if 500 ≤ resp.statusCode ∧ attempt < maxRetryAttempts - 1 then
        let rest := doJSONLoop doer remaining (attempt + 1)
        ⟨rest.outcome, rest.attempts + 1, backoffMs attempt :: rest.waits⟩
      else
        ⟨Except.ok (resp.body, resp.statusCode), 1, []⟩

/-- `doJSON`: marshal the (always marshallable) payload, then run the
retry loop from attempt 0. -/
def doJSON (doer : Doer) : DoJSONRun := doJSONLoop doer maxRetryAttempts 0

/-! ## Request marshalling and struct conversions (`client.go`) -/

/-- `billingDatasourceTypeGCP = "GCP"`. -/
def billingDatasourceTypeGCP : String := "GCP"

/-- `billingDatasourceTypeAWS = "AWS"`. -/
def billingDatasourceTypeAWS : String := "AWS"

/-- The wire fields of an `omitempty`-tagged `*string` field: omitted when
nil. -/
def optStrField (key : String) : Option String → List (String × JSON)
  | none => []
  | some s => [(key, JSON.str s)]

/-- The wire fields of an `omitempty`-tagged `*bool` field: omitted when
nil. -/
def optBoolField (key : String) : Option Bool → List (String × JSON)
  | none => []
  | some b => [(key, JSON.bool b)]

/-- `json.Marshal` of `gcpBillingDatasourceAPIRequest` (struct field
order; optional fields omitted when unset). -/
def marshalGCPAPIRequest (r : gcpBillingDatasourceAPIRequest) : JSON :=
  JSON.obj
    ([("type", JSON.str r.Typ), ("name", JSON.str r.Name),
      ("bqTablePath", JSON.str r.BQTablePath)]
      ++ optBoolField "isDetailedBilling" r.IsDetailedBilling
      ++ optStrField "startDate" r.StartDate
      ++ optStrField "endDate" r.EndDate)

/-- `json.Marshal` of `awsBillingDatasourceAPIRequest`. -/
def marshalAWSAPIRequest (r : awsBillingDatasourceAPIRequest) : JSON :=
  JSON.obj
    ([("type", JSON.str r.Typ), ("name", JSON.str r.Name),
      ("bucketName", JSON.str r.BucketName), ("roleArn", JSON.str r.RoleARN),
      ("prefix", JSON.str r.BucketPrefix)]
      ++ optBoolField "eksSplitDataEnabled" r.EKSSplitDataEnabled
      ++ optStrField "startDate" r.StartDate
      ++ optStrField "endDate" r.EndDate
      ++ optBoolField "eksSplit" r.EKSSplit)

/-- The keys present in a marshalled JSON object (the wire payload). -/
def objKeys : JSON → List String
  | JSON.obj fields => fields.map Prod.fst
  | _ => []

/-- `GCPBillingDatasourceRequest.toAPIRequest()`. -/
def GCPBillingDatasourceRequest.toAPIRequest (r : GCPBillingDatasourceRequest) :
    gcpBillingDatasourceAPIRequest :=
  ⟨billingDatasourceTypeGCP, r.Name, r.BQURI, r.IsDetailedBilling, r.StartDate, r.EndDate⟩

/-- `AWSBillingDatasourceRequest.toAPIRequest()`. -/
def AWSBillingDatasourceRequest.toAPIRequest (r : AWSBillingDatasourceRequest) :
    awsBillingDatasourceAPIRequest :=
  ⟨billingDatasourceTypeAWS, r.Name, r.BucketName, r.RoleARN, r.BucketPrefix,
    r.EKSSplitDataEnabled, r.StartDate, r.EndDate, r.EKSSplit⟩

/-- `gcpBillingDatasourceAPIResponse.toGCPBillingDatasource()`. -/
def gcpBillingDatasourceAPIResponse.toGCPBillingDatasource
    (r : gcpBillingDatasourceAPIResponse) : GCPBillingDatasource :=
  ⟨r.ID, r.Typ, r.Status, r.Name, r.BQURI, r.IsDetailedBilling, r.StartDate, r.EndDate⟩

/-- `awsBillingDatasourceAPIResponse.toAWSBillingDatasource()`. -/
def awsBillingDatasourceAPIResponse.toAWSBillingDatasource
    (r : awsBillingDatasourceAPIResponse) : AWSBillingDatasource :=
  ⟨r.ID, r.Typ, r.Status, r.Name, r.BucketName, r.RoleARN, r.BucketPrefix,
    r.EKSSplitDataEnabled, r.StartDate, r.EndDate, r.EKSSplit⟩

/-! ## Exported domain operations (`client.go`)

Each operation records its result together with the HTTP attempt count
and backoff waits of the one `doJSON` call it performs. -/

/-- The observable outcome of one exported client operation. -/
structure ClientRun (α : Type) where
  result : Except ClientError α
  attempts : Nat
  waits : List Nat

/-- `Client.GetServiceAccount`: require 200, decode, normalize aliased
fields (canonical snake_case name first, camelCase alias next), default
nil sub-ids to the empty slice. -/
def GetServiceAccount (doer : Doer) : ClientRun ServiceAccountResponse :=
  let run := doJSON doer
  match run.outcome with
  | Except.error e => ⟨Except.error e, run.attempts, run.waits⟩
  | Except.ok (body, statusCode) =>
    if statusCode ≠ 200 then
      ⟨Except.error (ClientError.unexpectedStatus (unexpectedStatusMessage statusCode body)),
        run.attempts, run.waits⟩
    else
      match bodyUnmarshal unmarshalServiceAccount body with
      | none => ⟨Except.error ClientError.decodeBody, run.attempts, run.waits⟩
      | some out =>
        let normalized : ServiceAccountResponse :=
          ⟨firstNonEmptyString [out.ServiceAccount, out.ServiceAccountCamel, out.ServiceAccountEmail],
            firstStringSlice [out.SubIDs, out.SubIDsCamel]⟩
        let normalized :=
          if normalized.SubIDs = none then { normalized with SubIDs := some [] } else normalized
        ⟨Except.ok normalized, run.attempts, run.waits⟩

/-- `Client.CreateGCPBillingDatasource`: require 2xx, decode, convert,
fail locally when the response carries no id. -/
def CreateGCPBillingDatasource (doer : Doer) (_req : GCPBillingDatasourceRequest) :
    ClientRun GCPBillingDatasource :=
  let run := doJSON doer
  match run.outcome with
  | Except.error e => ⟨Except.error e, run.attempts, run.waits⟩
  | Except.ok (body, statusCode) =>
    if statusCode < 200 ∨ 300 ≤ statusCode then
      ⟨Except.error (ClientError.unexpectedStatus (unexpectedStatusMessage statusCode body)),
        run.attempts, run.waits⟩
    else
      match bodyUnmarshal unmarshalGCPResponse body with
      | none => ⟨Except.error ClientError.decodeBody, run.attempts, run.waits⟩
      | some out =>
        let normalized := out.toGCPBillingDatasource
        if normalized.ID = "" then
          ⟨Except.error ClientError.createMissingID, run.attempts, run.waits⟩
        else ⟨Except.ok normalized, run.attempts, run.waits⟩

/-- `Client.CreateAWSBillingDatasource`. -/
def CreateAWSBillingDatasource (doer : Doer) (_req : AWSBillingDatasourceRequest) :
    ClientRun AWSBillingDatasource :=
  let run := doJSON doer
  match run.outcome with
  | Except.error e => ⟨Except.error e, run.attempts, run.waits⟩
  | Except.ok (body, statusCode) =>
    if statusCode < 200 ∨ 300 ≤ statusCode then
      ⟨Except.error (ClientError.unexpectedStatus (unexpectedStatusMessage statusCode body)),
        run.attempts, run.waits⟩
    else
      match bodyUnmarshal unmarshalAWSResponse body with
      | none => ⟨Except.error ClientError.decodeBody, run.attempts, run.waits⟩
      | some out =>
        let normalized := out.toAWSBillingDatasource
        if normalized.ID = "" then
          ⟨Except.error ClientError.createMissingID, run.attempts, run.waits⟩
        else ⟨Except.ok normalized, run.attempts, run.waits⟩

/-- `Client.GetGCPBillingDatasource`: 404 is the `ErrNotFound` sentinel,
non-200 an unexpected-status error; a decoded body with empty id is
backfilled with the requested `datasourceID`. -/
def GetGCPBillingDatasource (doer : Doer) (datasourceID : String) :
    ClientRun GCPBillingDatasource :=
  let run := doJSON doer
  match run.outcome with
  | Except.error e => ⟨Except.error e, run.attempts, run.waits⟩
  | Except.ok (body, statusCode) =>
    if statusCode = 404 then
      ⟨Except.error ClientError.errNotFound, run.attempts, run.waits⟩
    else if statusCode ≠ 200 then
      ⟨Except.error (ClientError.unexpectedStatus (unexpectedStatusMessage statusCode body)),
        run.attempts, run.waits⟩
    else
      match bodyUnmarshal unmarshalGCPResponse body with
      | none => ⟨Except.error ClientError.decodeBody, run.attempts, run.waits⟩
      | some out =>
        let normalized := out.toGCPBillingDatasource
        let normalized :=
          if normalized.ID = "" then { normalized with ID := datasourceID } else normalized
        ⟨Except.ok normalized, run.attempts, run.waits⟩

/-- `Client.GetAWSBillingDatasource`. -/
def GetAWSBillingDatasource (doer : Doer) (datasourceID : String) :
    ClientRun AWSBillingDatasource :=
  let run := doJSON doer
  match run.outcome with
  | Except.error e => ⟨Except.error e, run.attempts, run.waits⟩
  | Except.ok (body, statusCode) =>
    if statusCode = 404 then
      ⟨Except.error ClientError.errNotFound, run.attempts, run.waits⟩
    else if statusCode ≠ 200 then
      ⟨Except.error (ClientError.unexpectedStatus (unexpectedStatusMessage statusCode body)),
        run.attempts, run.waits⟩
    else
      match bodyUnmarshal unmarshalAWSResponse body with
      | none => ⟨Except.error ClientError.decodeBody, run.attempts, run.waits⟩
      | some out =>
        let normalized := out.toAWSBillingDatasource
        let normalized :=
          if normalized.ID = "" then { normalized with ID := datasourceID } else normalized
        ⟨Except.ok normalized, run.attempts, run.waits⟩

/-- `Client.DeleteBillingDatasource`: 404 is the `ErrNotFound` sentinel,
204 and 200 succeed, anything else is an unexpected-status error. -/
def DeleteBillingDatasource (doer : Doer) (_datasourceID : String) : ClientRun Unit :=
  let run := doJSON doer
  match run.outcome with
  | Except.error e => ⟨Except.error e, run.attempts, run.waits⟩
  | Except.ok (body, statusCode) =>
    if statusCode = 404 then
      ⟨Except.error ClientError.errNotFound, run.attempts, run.waits⟩
    else if statusCode = 204 ∨ statusCode = 200 then
      ⟨Except.ok (), run.attempts, run.waits⟩
    else
      ⟨Except.error (ClientError.unexpectedStatus (unexpectedStatusMessage statusCode body)),
        run.attempts, run.waits⟩

/-! ## The AWS resource delete handler
(`internal/provider/billingdatasource`, `awsResource.Delete`) -/

/-- `awsResource.Delete`: runs the client delete for the state's id; an
error diagnostic is added only when the error is not the `ErrNotFound`
sentinel (`if err != nil && !errors.Is(err, ErrNotFound)`).  Returns the
added diagnostic title, or `none` on a success outcome. -/
def awsResourceDeleteDiagnostic (doer : Doer) (stateID : String) : Option String :=
  match (DeleteBillingDatasource doer stateID).result with
  | Except.error e =>
      if e = ClientError.errNotFound then none
      else some "Unable to delete AWS billing datasource"
  | Except.ok _ => none

/-! ## Transport-layer lemmas -/

/-- One-step unfolding of the retry loop. -/
theorem doJSONLoop_succ (doer : Doer) (remaining attempt : Nat) :
    doJSONLoop doer (remaining + 1) attempt =
      match doer attempt with
      | Except.error e => ⟨Except.error (ClientError.executeRequest e), 1, []⟩
      | Except.ok resp =>
        if 500 ≤ resp.statusCode ∧ attempt < maxRetryAttempts - 1 then
          let rest := doJSONLoop doer remaining (attempt + 1)
          ⟨rest.outcome, rest.attempts + 1, backoffMs attempt :: rest.waits⟩
        else ⟨Except.ok (resp.body, resp.statusCode), 1, []⟩ := by
  simp [doJSONLoop]

/-- If the first `j` attempts are 5xx and attempt `j` is non-5xx, the loop
returns attempt `j`'s body and status, after `j + 1` HTTP attempts and a
backoff before each retry. -/
theorem doJSONLoop_first_non5xx (doer : Doer) (resp : HTTPResponse)
    (hresp : resp.statusCode < 500) :
    ∀ (j remaining attempt : Nat), j < remaining →
      remaining + attempt = maxRetryAttempts →
      (∀ i, attempt ≤ i → i < attempt + j →
        ∃ r, doer i = Except.ok r ∧ 500 ≤ r.statusCode) →
      doer (attempt + j) = Except.ok resp →
      doJSONLoop doer remaining attempt =
        ⟨Except.ok (resp.body, resp.statusCode), j + 1, (List.range' attempt j).map backoffMs⟩ := by
  intro j
  induction j with
  | zero =>
    intro remaining attempt hj hsum hpre hok
    obtain ⟨r, rfl⟩ : ∃ r, remaining = r + 1 := ⟨remaining - 1, by omega⟩
    rw [Nat.add_zero] at hok
    have hnot : ¬ (500 ≤ resp.statusCode ∧ attempt < maxRetryAttempts - 1) := by
      intro h; omega
    simp [doJSONLoop, hok, hnot]
  | succ j ih =>
    intro remaining attempt hj hsum hpre hok
    obtain ⟨r, rfl⟩ : ∃ r, remaining = r + 1 := ⟨remaining - 1, by omega⟩
    obtain ⟨r0, hd0, h500⟩ := hpre attempt (Nat.le_refl _) (by omega)
    have hmax : maxRetryAttempts = 4 := rfl
    have hcond : 500 ≤ r0.statusCode ∧ attempt < maxRetryAttempts - 1 := by
      refine ⟨h500, ?_⟩; omega
    have hrec := ih r (attempt + 1) (by omega) (by omega)
      (fun i hi1 hi2 => hpre i (by omega) (by omega))
      (by rw [show attempt + 1 + j = attempt + (j + 1) from by omega]; exact hok)
    simp [doJSONLoop, hd0, hcond, hrec, List.range'_succ]

/-- If every attempt is 5xx, the loop walks all remaining attempts and
returns the final attempt's body and status. -/
theorem doJSONLoop_all_5xx (doer : Doer) (resp : HTTPResponse)
    (hlast : doer (maxRetryAttempts - 1) = Except.ok resp) :
    ∀ remaining attempt, remaining + attempt = maxRetryAttempts → 1 ≤ remaining →
      (∀ i, attempt ≤ i → i < maxRetryAttempts →
        ∃ r, doer i = Except.ok r ∧ 500 ≤ r.statusCode) →
      doJSONLoop doer remaining attempt =
        ⟨Except.ok (resp.body, resp.statusCode), remaining,
          (List.range' attempt (remaining - 1)).map backoffMs⟩ := by
  have hmax : maxRetryAttempts = 4 := rfl
  intro remaining
  induction remaining with
  | zero => intro attempt _ h1 _; omega
  | succ r ih =>
    intro attempt hsum _h1 hall
    cases r with
    | zero =>
      have ha : attempt = maxRetryAttempts - 1 := by omega
      subst ha
      have hnot : ¬ (500 ≤ resp.statusCode ∧
          maxRetryAttempts - 1 < maxRetryAttempts - 1) := by
        intro h; omega
      simp [doJSONLoop, hlast, hnot]
    | succ r' =>
      obtain ⟨r0, hd0, h500⟩ := hall attempt (Nat.le_refl _) (by omega)
      have hcond : 500 ≤ r0.statusCode ∧ attempt < maxRetryAttempts - 1 := by
        refine ⟨h500, ?_⟩; omega
      have hrec := ih (attempt + 1) (by omega) (by omega)
        (fun i hi1 hi2 => hall i (by omega) hi2)
      rw [doJSONLoop_succ]
      simp only [hd0]
      rw [if_pos hcond]
      simp only [hrec, Nat.add_sub_cancel]
      simp [List.range'_succ]

/-- The `errors.New("request retries exhausted")` return after the loop is
unreachable: the final loop iteration always returns. -/
theorem doJSONLoop_no_retriesExhausted (doer : Doer) :
    ∀ remaining attempt, attempt < maxRetryAttempts →
      maxRetryAttempts ≤ attempt + remaining →
      (doJSONLoop doer remaining attempt).outcome ≠
        Except.error ClientError.retriesExhausted := by
  intro remaining
  induction remaining with
  | zero => intro attempt h1 h2; omega
  | succ r ih =>
    intro attempt h1 h2
    cases hd : doer attempt with
    | error e => simp [doJSONLoop, hd]
    | ok resp =>
      by_cases hcond : 500 ≤ resp.statusCode ∧ attempt < maxRetryAttempts - 1
      · have := ih (attempt + 1) (by omega) (by omega)
        simpa [doJSONLoop, hd, hcond] using this
      · simp [doJSONLoop, hd, hcond]

/-- The backoff waits performed by the loop sum to at most the backoffs of
all its possible retries. -/
theorem doJSONLoop_waits_sum_le (doer : Doer) :
    ∀ remaining attempt, remaining + attempt = maxRetryAttempts →
      (doJSONLoop doer remaining attempt).waits.sum ≤
        ((List.range' attempt (remaining - 1)).map backoffMs).sum := by
  have hmax : maxRetryAttempts = 4 := rfl
  intro remaining
  induction remaining with
  | zero => intro attempt _; simp [doJSONLoop]
  | succ r ih =>
    intro attempt hsum
    cases hd : doer attempt with
    | error e => simp [doJSONLoop, hd]
    | ok resp =>
      by_cases hcond : 500 ≤ resp.statusCode ∧ attempt < maxRetryAttempts - 1
      · obtain ⟨r', rfl⟩ : ∃ r', r = r' + 1 := ⟨r - 1, by omega⟩
        have hrec := ih (attempt + 1) (by omega)
        rw [doJSONLoop_succ]
        simp only [hd]
        rw [if_pos hcond]
        simp only [Nat.add_sub_cancel] at hrec ⊢
        simp only [List.range'_succ, List.map_cons, List.sum_cons]
        omega
      · simp [doJSONLoop, hd, hcond]

/-! ## Claims about the retry policy (C1, C2, C9) -/

/-- A backend whose every response is `500` with body "backend down". -/
def allServerErrorsDoer : Doer :=
  fun _ => Except.ok ⟨500, BodyWire.text "backend down"⟩

/-- A backend answering `503` once, then `200` with body "payload". -/
def retryOnceDoer : Doer := fun attempt =>
  if attempt = 0 then Except.ok ⟨503, BodyWire.text "unavailable"⟩
  else Except.ok ⟨200, BodyWire.text "payload"⟩

/-- Claim C1: through `doJSON`, a 5xx response is retried up to the fixed
maximum of 4 attempts with an exponential backoff of `500ms * 2^attempt`
before each retry; any non-5xx response (4xx included) is returned
immediately to the caller with its status and body, never retried; and
when the backend answers 5xx on every attempt, exactly 4 attempts are
made. -/
theorem doJSON_retry_policy (doer : Doer) :
    (∀ attempt, backoffMs attempt = 500 * 2 ^ attempt)
    ∧ (∀ k resp, k < maxRetryAttempts →
        (∀ i, i < k → ∃ r, doer i = Except.ok r ∧ 500 ≤ r.statusCode) →
        doer k = Except.ok resp → resp.statusCode < 500 →
        doJSON doer =
          ⟨Except.ok (resp.body, resp.statusCode), k + 1, (List.range k).map backoffMs⟩)
    ∧ ((∀ i, i < maxRetryAttempts → ∃ r, doer i = Except.ok r ∧ 500 ≤ r.statusCode) →
        (doJSON doer).attempts = maxRetryAttempts) := by
  refine ⟨?_, ?_, ?_⟩
  · intro attempt
    simp [backoffMs, Nat.shiftLeft_eq, Nat.mul_comm]
  · intro k resp hk hpre hok hnon5
    have h := doJSONLoop_first_non5xx doer resp hnon5 k maxRetryAttempts 0 hk
      (by decide) (fun i hi1 hi2 => hpre i (by omega)) (by simpa using hok)
    rw [doJSON, h, List.range_eq_range']
  · intro hall
    obtain ⟨resp, hlast, _⟩ := hall (maxRetryAttempts - 1) (by decide)
    have h := doJSONLoop_all_5xx doer resp hlast maxRetryAttempts 0
      (by decide) (by decide) (fun i _ hi2 => hall i hi2)
    rw [doJSON, h]

/-- Witness for C1: a 503 then a 200 — the 200 is returned after 2
attempts with one 500ms backoff. -/
theorem doJSON_retry_policy_witness :
    doJSON retryOnceDoer = ⟨Except.ok (BodyWire.text "payload", 200), 2, [500]⟩ := by
  have h := (doJSON_retry_policy retryOnceDoer).2.1 1 ⟨200, BodyWire.text "payload"⟩
    (by norm_num [maxRetryAttempts])
    (fun i hi => by
      have hi0 : i = 0 := by omega
      subst hi0
      exact ⟨⟨503, BodyWire.text "unavailable"⟩, rfl, by norm_num⟩)
    rfl (by norm_num)
  exact h

/-- Claim C2 counterexample: with a backend that answers 500 on all 4
attempts, `doJSON` returns the last 5xx status and body, not the
"request retries exhausted" error the claim announces. -/
theorem doJSON_retries_exhausted_counterexample :
    doJSON allServerErrorsDoer =
      ⟨Except.ok (BodyWire.text "backend down", 500), 4, [500, 1000, 2000]⟩
    ∧ (doJSON allServerErrorsDoer).outcome ≠
        Except.error ClientError.retriesExhausted := by
  constructor
  · rfl
  · intro h
    rw [show (doJSON allServerErrorsDoer).outcome =
        Except.ok (BodyWire.text "backend down", 500) from rfl] at h
    exact Except.noConfusion h

/-- Claim C2 (amended): when all 4 attempts return 5xx, `doJSON` returns
the final attempt's 5xx status and body after exactly 4 attempts (the
exported operations then turn it into an unexpected-status error); the
"request retries exhausted" return after the loop is unreachable for
every backend. -/
theorem doJSON_all_5xx_returns_last (doer : Doer) (resp : HTTPResponse)
    (hall : ∀ i, i < maxRetryAttempts → ∃ r, doer i = Except.ok r ∧ 500 ≤ r.statusCode)
    (hlast : doer (maxRetryAttempts - 1) = Except.ok resp) :
    doJSON doer = ⟨Except.ok (resp.body, resp.statusCode), 4, [500, 1000, 2000]⟩
    ∧ ∀ d : Doer, (doJSON d).outcome ≠ Except.error ClientError.retriesExhausted := by
  constructor
  · have h := doJSONLoop_all_5xx doer resp hlast maxRetryAttempts 0
      (by decide) (by decide) (fun i _ hi2 => hall i hi2)
    rw [doJSON, h]
    rfl
  · intro d
    exact doJSONLoop_no_retriesExhausted d maxRetryAttempts 0 (by decide) (by decide)

/-- Witness for the amended C2, at the all-500 backend. -/
theorem doJSON_all_5xx_returns_last_witness :
    doJSON allServerErrorsDoer =
      ⟨Except.ok (BodyWire.text "backend down", 500), 4, [500, 1000, 2000]⟩ :=
  (doJSON_all_5xx_returns_last allServerErrorsDoer ⟨500, BodyWire.text "backend down"⟩
    (fun i _ => ⟨⟨500, BodyWire.text "backend down"⟩, rfl, by norm_num⟩) rfl).1

/-- Claim C9 counterexample: in the worst case (5xx on every attempt) the
backoff waits performed are 500ms, 1000ms and 2000ms — a cumulative sleep
of 3.5s, not approximately 7.5s (it does not even reach half of it). -/
theorem doJSON_backoff_total_counterexample :
    (doJSON allServerErrorsDoer).waits = [500, 1000, 2000]
    ∧ (doJSON allServerErrorsDoer).waits.sum = 3500
    ∧ 2 * (doJSON allServerErrorsDoer).waits.sum < 7500 := by
  refine ⟨rfl, rfl, ?_⟩
  rw [show (doJSON allServerErrorsDoer).waits.sum = 3500 from rfl]
  norm_num

/-- Claim C9 (amended): the worst-case cumulative backoff sleep of one
operation is 3.5 seconds — the sum of the waits `500ms * 2^attempt`
actually performed, one before each of the up-to-3 retries (no wait
follows the final attempt); it is attained when the backend returns 5xx
on every attempt. -/
theorem doJSON_cumulative_backoff_bound (doer : Doer) :
    (doJSON doer).waits.sum ≤ 3500
    ∧ ((∀ i, i < maxRetryAttempts → ∃ r, doer i = Except.ok r ∧ 500 ≤ r.statusCode) →
        (doJSON doer).waits = [500, 1000, 2000] ∧ (doJSON doer).waits.sum = 3500) := by
  constructor
  · have h := doJSONLoop_waits_sum_le doer maxRetryAttempts 0 (by decide)
    rw [doJSON]
    calc (doJSONLoop doer maxRetryAttempts 0).waits.sum
        ≤ ((List.range' 0 (maxRetryAttempts - 1)).map backoffMs).sum := h
      _ = 3500 := by rfl
  · intro hall
    obtain ⟨resp, hlast, _⟩ := hall (maxRetryAttempts - 1) (by decide)
    have h := doJSONLoop_all_5xx doer resp hlast maxRetryAttempts 0
      (by decide) (by decide) (fun i _ hi2 => hall i hi2)
    rw [doJSON, h]
    exact ⟨rfl, rfl⟩

/-- Witness for the amended C9, at the all-500 backend. -/
theorem doJSON_cumulative_backoff_bound_witness :
    (doJSON allServerErrorsDoer).waits = [500, 1000, 2000]
    ∧ (doJSON allServerErrorsDoer).waits.sum = 3500 :=
  (doJSON_cumulative_backoff_bound allServerErrorsDoer).2
    (fun i _ => ⟨⟨500, BodyWire.text "backend down"⟩, rfl, by norm_num⟩)

/-! ## Claims about status-code handling (C3, C4, C5) -/

/-- A backend whose every response is `404` with an empty body. -/
def notFoundDoer : Doer := fun _ => Except.ok ⟨404, BodyWire.text ""⟩

/-- A backend answering `201` with a datasource body that has no `id`. -/
def createNoIDDoer : Doer := fun _ =>
  Except.ok ⟨201, BodyWire.jsonVal (JSON.obj
    [("type", JSON.str "GCP"), ("name", JSON.str "GCP Billing")])⟩

/-- A sample GCP create request. -/
def sampleGCPRequest : GCPBillingDatasourceRequest :=
  ⟨"GCP Billing", "project.dataset.table", some true, some "2025-01-01", none⟩

/-- A sample AWS create request. -/
def sampleAWSRequest : AWSBillingDatasourceRequest :=
  ⟨"AWS Billing", "billing-bucket", "arn:aws:iam::123456789012:role/costory", "cur/",
    some false, some "2025-01-01", none, some true⟩

/-- Claim C3: a successful create (2xx) of a GCP or AWS billing
datasource returns an object with a non-empty id; and a 2xx create
response whose decoded body lacks an id fails with the local
missing-id error, with no further HTTP attempt and no object. -/
theorem create_requires_id (doer : Doer)
    (reqG : GCPBillingDatasourceRequest) (reqA : AWSBillingDatasourceRequest) :
    (∀ ds, (CreateGCPBillingDatasource doer reqG).result = Except.ok ds → ds.ID ≠ "")
    ∧ (∀ ds, (CreateAWSBillingDatasource doer reqA).result = Except.ok ds → ds.ID ≠ "")
    ∧ (∀ body statusCode out,
        (doJSON doer).outcome = Except.ok (body, statusCode) →
        200 ≤ statusCode → statusCode < 300 →
        bodyUnmarshal unmarshalGCPResponse body = some out → out.ID = "" →
        (CreateGCPBillingDatasource doer reqG).result =
          Except.error ClientError.createMissingID
        ∧ (CreateGCPBillingDatasource doer reqG).attempts = (doJSON doer).attempts)
    ∧ (∀ body statusCode out,
        (doJSON doer).outcome = Except.ok (body, statusCode) →
        200 ≤ statusCode → statusCode < 300 →
        bodyUnmarshal unmarshalAWSResponse body = some out → out.ID = "" →
        (CreateAWSBillingDatasource doer reqA).result =
          Except.error ClientError.createMissingID
        ∧ (CreateAWSBillingDatasource doer reqA).attempts = (doJSON doer).attempts) := by
  refine ⟨?_, ?_, ?_, ?_⟩
  · intro ds h
    simp only [CreateGCPBillingDatasource] at h
    split at h
    · exact absurd h (by simp)
    · split at h
      · exact absurd h (by simp)
      · split at h
        · exact absurd h (by simp)
        · split at h
          · exact absurd h (by simp)
          · rename_i hid
            simp only [Except.ok.injEq] at h
            subst h
            exact hid
  · intro ds h
    simp only [CreateAWSBillingDatasource] at h
    split at h
    · exact absurd h (by simp)
    · split at h
      · exact absurd h (by simp)
      · split at h
        · exact absurd h (by simp)
        · split at h
          · exact absurd h (by simp)
          · rename_i hid
            simp only [Except.ok.injEq] at h
            subst h
            exact hid
  · intro body statusCode out houtcome h200 h300 hdec hid
    have hrange : ¬ (statusCode < 200 ∨ 300 ≤ statusCode) := by omega
    constructor
    · simp [CreateGCPBillingDatasource, houtcome, hrange, hdec,
        gcpBillingDatasourceAPIResponse.toGCPBillingDatasource, hid]
    · simp [CreateGCPBillingDatasource, houtcome, hrange, hdec,
        gcpBillingDatasourceAPIResponse.toGCPBillingDatasource, hid]
  · intro body statusCode out houtcome h200 h300 hdec hid
    have hrange : ¬ (statusCode < 200 ∨ 300 ≤ statusCode) := by omega
    constructor
    · simp [CreateAWSBillingDatasource, houtcome, hrange, hdec,
        awsBillingDatasourceAPIResponse.toAWSBillingDatasource, hid]
    · simp [CreateAWSBillingDatasource, houtcome, hrange, hdec,
        awsBillingDatasourceAPIResponse.toAWSBillingDatasource, hid]

/-- Witness for C3: a 201 response without id fails with the local
missing-id error after the single HTTP attempt. -/
theorem create_requires_id_witness :
    (CreateGCPBillingDatasource createNoIDDoer sampleGCPRequest).result =
      Except.error ClientError.createMissingID
    ∧ (CreateGCPBillingDatasource createNoIDDoer sampleGCPRequest).attempts =
        (doJSON createNoIDDoer).attempts := by
  have h := (create_requires_id createNoIDDoer sampleGCPRequest sampleAWSRequest).2.2.1
    (BodyWire.jsonVal (JSON.obj [("type", JSON.str "GCP"), ("name", JSON.str "GCP Billing")]))
    201 ⟨"", "GCP", none, "GCP Billing", "", none, none, none⟩
    rfl (by norm_num) (by norm_num) rfl rfl
  exact h

/-- Claim C4: a read that observes HTTP 404 returns exactly the
`ErrNotFound` sentinel — an equality-checkable value, never a generic
error — for both datasource kinds. -/
theorem get_404_yields_errNotFound (doer : Doer) (datasourceID : String) (body : BodyWire)
    (h : (doJSON doer).outcome = Except.ok (body, 404)) :
    (GetGCPBillingDatasource doer datasourceID).result =
      Except.error ClientError.errNotFound
    ∧ (GetAWSBillingDatasource doer datasourceID).result =
        Except.error ClientError.errNotFound := by
  constructor
  · simp [GetGCPBillingDatasource, h]
  · simp [GetAWSBillingDatasource, h]

/-- Witness for C4, at an always-404 backend. -/
theorem get_404_yields_errNotFound_witness :
    (GetGCPBillingDatasource notFoundDoer "missing-id").result =
      Except.error ClientError.errNotFound
    ∧ (GetAWSBillingDatasource notFoundDoer "missing-id").result =
        Except.error ClientError.errNotFound :=
  get_404_yields_errNotFound notFoundDoer "missing-id" (BodyWire.text "") rfl

/-- Claim C5: a delete that observes HTTP 404 is a success outcome of the
delete operation: the client returns the `ErrNotFound` sentinel, which
the resource delete handler classifies as already-gone and adds no error
diagnostic. -/
theorem delete_404_is_success (doer : Doer) (stateID : String) (body : BodyWire)
    (h : (doJSON doer).outcome = Except.ok (body, 404)) :
    (DeleteBillingDatasource doer stateID).result =
      Except.error ClientError.errNotFound
    ∧ awsResourceDeleteDiagnostic doer stateID = none := by
  have hdel : (DeleteBillingDatasource doer stateID).result =
      Except.error ClientError.errNotFound := by
    simp [DeleteBillingDatasource, h]
  exact ⟨hdel, by simp [awsResourceDeleteDiagnostic, hdel]⟩

/-- Witness for C5, at an always-404 backend. -/
theorem delete_404_is_success_witness :
    (DeleteBillingDatasource notFoundDoer "aws-ds-1").result =
      Except.error ClientError.errNotFound
    ∧ awsResourceDeleteDiagnostic notFoundDoer "aws-ds-1" = none :=
  delete_404_is_success notFoundDoer "aws-ds-1" (BodyWire.text "") rfl

/-! ## Claims about reads and normalization (C10, C6) -/

/-- A backend answering `200` with a GCP datasource body that lacks `id`. -/
def readNoIDGCPDoer : Doer := fun _ =>
  Except.ok ⟨200, BodyWire.jsonVal (JSON.obj
    [("type", JSON.str "GCP"), ("name", JSON.str "GCP Billing")])⟩

/-- A backend answering `200` with an AWS datasource body that lacks `id`. -/
def readNoIDAWSDoer : Doer := fun _ =>
  Except.ok ⟨200, BodyWire.jsonVal (JSON.obj
    [("type", JSON.str "AWS"), ("name", JSON.str "AWS Billing")])⟩

/-- Claim C10: a read by id that succeeds with HTTP 200 and decodes to a
body with an empty (or missing) id returns an object whose ID is
backfilled with the caller-supplied `datasourceID`; consequently a read's
returned ID is non-empty whenever the requested id is, for both kinds. -/
theorem get_backfills_empty_id (doer : Doer) (datasourceID : String) (body : BodyWire)
    (outG : gcpBillingDatasourceAPIResponse) (outA : awsBillingDatasourceAPIResponse) :
    ((doJSON doer).outcome = Except.ok (body, 200) →
      bodyUnmarshal unmarshalGCPResponse body = some outG → outG.ID = "" →
      (GetGCPBillingDatasource doer datasourceID).result = Except.ok
        ⟨datasourceID, outG.Typ, outG.Status, outG.Name, outG.BQURI,
          outG.IsDetailedBilling, outG.StartDate, outG.EndDate⟩)
    ∧ ((doJSON doer).outcome = Except.ok (body, 200) →
      bodyUnmarshal unmarshalAWSResponse body = some outA → outA.ID = "" →
      (GetAWSBillingDatasource doer datasourceID).result = Except.ok
        ⟨datasourceID, outA.Typ, outA.Status, outA.Name, outA.BucketName, outA.RoleARN,
          outA.BucketPrefix, outA.EKSSplitDataEnabled, outA.StartDate, outA.EndDate,
          outA.EKSSplit⟩)
    ∧ (datasourceID ≠ "" → ∀ ds,
        (GetGCPBillingDatasource doer datasourceID).result = Except.ok ds → ds.ID ≠ "")
    ∧ (datasourceID ≠ "" → ∀ ds,
        (GetAWSBillingDatasource doer datasourceID).result = Except.ok ds → ds.ID ≠ "") := by
  refine ⟨?_, ?_, ?_, ?_⟩
  · intro houtcome hdec hid
    simp [GetGCPBillingDatasource, houtcome, hdec,
      gcpBillingDatasourceAPIResponse.toGCPBillingDatasource, hid]
  · intro houtcome hdec hid
    simp [GetAWSBillingDatasource, houtcome, hdec,
      awsBillingDatasourceAPIResponse.toAWSBillingDatasource, hid]
  · intro hds ds h
    simp only [GetGCPBillingDatasource] at h
    split at h
    · exact absurd h (by simp)
    · split at h
      · exact absurd h (by simp)
      · split at h
        · exact absurd h (by simp)
        · split at h
          · exact absurd h (by simp)
          · rename_i hid
            simp only [Except.ok.injEq] at h
            subst h
            split
            · exact hds
            · rename_i hne
              exact hne
  · intro hds ds h
    simp only [GetAWSBillingDatasource] at h
    split at h
    · exact absurd h (by simp)
    · split at h
      · exact absurd h (by simp)
      · split at h
        · exact absurd h (by simp)
        · split at h
          · exact absurd h (by simp)
          · rename_i hid
            simp only [Except.ok.injEq] at h
            subst h
            split
            · exact hds
            · rename_i hne
              exact hne

/-- Witness for C10: reads against id-less 200 bodies return the
requested ids. -/
theorem get_backfills_empty_id_witness :
    (GetGCPBillingDatasource readNoIDGCPDoer "gcp-ds-1").result = Except.ok
      ⟨"gcp-ds-1", "GCP", none, "GCP Billing", "", none, none, none⟩
    ∧ (GetAWSBillingDatasource readNoIDAWSDoer "aws-ds-1").result = Except.ok
        ⟨"aws-ds-1", "AWS", none, "AWS Billing", "", "", "", none, none, none, none⟩ := by
  constructor
  · exact (get_backfills_empty_id readNoIDGCPDoer "gcp-ds-1"
      (BodyWire.jsonVal (JSON.obj [("type", JSON.str "GCP"), ("name", JSON.str "GCP Billing")]))
      ⟨"", "GCP", none, "GCP Billing", "", none, none, none⟩
      ⟨"", "", none, "", "", "", "", none, none, none, none⟩).1 rfl rfl rfl
  · exact (get_backfills_empty_id readNoIDAWSDoer "aws-ds-1"
      (BodyWire.jsonVal (JSON.obj [("type", JSON.str "AWS"), ("name", JSON.str "AWS Billing")]))
      ⟨"", "", none, "", "", none, none, none⟩
      ⟨"", "AWS", none, "AWS Billing", "", "", "", none, none, none, none⟩).2.1 rfl rfl rfl

/-- The backend of the C6 scenario:
`{"service_account":"sa-test","sub_ids":["sub-1","sub-2"]}` at 200. -/
def saScenarioDoer : Doer := fun _ =>
  Except.ok ⟨200, BodyWire.jsonVal (JSON.obj
    [("service_account", JSON.str "sa-test"),
     ("sub_ids", JSON.arr [JSON.str "sub-1", JSON.str "sub-2"])])⟩

/-- Claim C6: the response normalizer picks, per aliased field, the first
populated variant in the fixed precedence order — canonical snake_case
name first, camelCase alias second (then the email fallback for the
service account) — and yields the zero/absent value (the empty string, or
the empty list for sub-ids) when no variant is populated; in particular
`GetServiceAccount` against the scenario server returns
`{ServiceAccount:"sa-test", SubIDs:["sub-1","sub-2"]}`. -/
theorem getServiceAccount_normalization (doer : Doer) :
    (∀ body out, (doJSON doer).outcome = Except.ok (body, 200) →
      bodyUnmarshal unmarshalServiceAccount body = some out →
      (GetServiceAccount doer).result = Except.ok
        ⟨(if out.ServiceAccount ≠ "" then out.ServiceAccount
          else if out.ServiceAccountCamel ≠ "" then out.ServiceAccountCamel
          else if out.ServiceAccountEmail ≠ "" then out.ServiceAccountEmail
          else ""),
         (match out.SubIDs with
          | some v => some v
          | none =>
            match out.SubIDsCamel with
            | some v => some v
            | none => some [])⟩)
    ∧ (GetServiceAccount saScenarioDoer).result =
        Except.ok ⟨"sa-test", some ["sub-1", "sub-2"]⟩ := by
  constructor
  · intro body out houtcome hdec
    simp only [GetServiceAccount, houtcome]
    rw [if_neg (by simp)]
    simp only [hdec]
    rcases out with ⟨sa, saCamel, saEmail, subs, subsCamel⟩
    rcases subs with _ | v
    · rcases subsCamel with _ | w
      · simp [firstNonEmptyString, firstStringSlice]
      · simp [firstNonEmptyString, firstStringSlice]
    · simp [firstNonEmptyString, firstStringSlice]
  · rfl

/-- Witness for C6, instantiating the normalization theorem at the
scenario backend. -/
theorem getServiceAccount_normalization_witness :
    (GetServiceAccount saScenarioDoer).result =
      Except.ok ⟨"sa-test", some ["sub-1", "sub-2"]⟩ := by
  have h := (getServiceAccount_normalization saScenarioDoer).1
    (BodyWire.jsonVal (JSON.obj
      [("service_account", JSON.str "sa-test"),
       ("sub_ids", JSON.arr [JSON.str "sub-1", JSON.str "sub-2"])]))
    ⟨"sa-test", "", "", some ["sub-1", "sub-2"], none⟩ rfl rfl
  simpa using h

/-! ## Claim about unexpected-status error messages (C7) -/

/-- The backend of the C7 scenario: every response is `403` with the
structured body
`{"error":"aws_access_denied","reason":"Cannot access bucket with provided role"}`. -/
def forbiddenDeleteDoer : Doer := fun _ =>
  Except.ok ⟨403, BodyWire.jsonVal (JSON.obj
    [("error", JSON.str "aws_access_denied"),
     ("reason", JSON.str "Cannot access bucket with provided role")])⟩

/-- Claim C7: for a non-success status outside the accepted set, the error
message is built from the structured `{error, reason}` body when one of
those fields is present (embedding both values), else from the raw body
text, else from the HTTP status phrase; in particular a 403 delete with
the scenario body yields a message embedding `error=` and `reason=` with
those values verbatim. -/
theorem unexpectedStatus_message_shape (statusCode : Nat) (body : BodyWire) :
    (∀ apiErr, bodyUnmarshal unmarshalApiError body = some apiErr →
      (trimSpace apiErr.ErrorField ≠ "" ∨ trimSpace apiErr.Reason ≠ "") →
      unexpectedStatusMessage statusCode body =
        "unexpected status code " ++ toString statusCode ++ ": error=" ++
          trimSpace apiErr.ErrorField ++ " reason=" ++ trimSpace apiErr.Reason)
    ∧ ((bodyUnmarshal unmarshalApiError body = none ∨
        ∃ apiErr, bodyUnmarshal unmarshalApiError body = some apiErr ∧
          trimSpace apiErr.ErrorField = "" ∧ trimSpace apiErr.Reason = "") →
      trimSpace body.rawString ≠ "" →
      unexpectedStatusMessage statusCode body =
        "unexpected status code " ++ toString statusCode ++ ": " ++
          trimSpace body.rawString)
    ∧ ((bodyUnmarshal unmarshalApiError body = none ∨
        ∃ apiErr, bodyUnmarshal unmarshalApiError body = some apiErr ∧
          trimSpace apiErr.ErrorField = "" ∧ trimSpace apiErr.Reason = "") →
      trimSpace body.rawString = "" →
      unexpectedStatusMessage statusCode body =
        "unexpected status code " ++ toString statusCode ++ ": " ++
          statusText statusCode)
    ∧ (DeleteBillingDatasource forbiddenDeleteDoer "aws-ds-1").result =
        Except.error (ClientError.unexpectedStatus
          ("unexpected status code 403: error=aws_access_denied" ++
            " reason=Cannot access bucket with provided role")) := by
  refine ⟨?_, ?_, ?_, rfl⟩
  · intro apiErr hdec hne
    simp [unexpectedStatusMessage, hdec, hne]
  · rintro (hdec | ⟨apiErr, hdec, he, hr⟩) hraw
    · simp [unexpectedStatusMessage, hdec, hraw]
    · simp [unexpectedStatusMessage, hdec, he, hr, hraw]
  · rintro (hdec | ⟨apiErr, hdec, he, hr⟩) hraw
    · simp [unexpectedStatusMessage, hdec, hraw]
    · simp [unexpectedStatusMessage, hdec, he, hr, hraw]

/-- Witness for C7, at the scenario 403 body: the message embeds both
values. -/
theorem unexpectedStatus_message_shape_witness :
    unexpectedStatusMessage 403 (BodyWire.jsonVal (JSON.obj
      [("error", JSON.str "aws_access_denied"),
       ("reason", JSON.str "Cannot access bucket with provided role")])) =
      "unexpected status code 403: error=aws_access_denied" ++
        " reason=Cannot access bucket with provided role" := by
  have h := (unexpectedStatus_message_shape 403 (BodyWire.jsonVal (JSON.obj
      [("error", JSON.str "aws_access_denied"),
       ("reason", JSON.str "Cannot access bucket with provided role")]))).1
    ⟨"aws_access_denied", "Cannot access bucket with provided role"⟩
    rfl (Or.inl (by decide))
  simpa using h

/-! ## Claim about the optional-field round trip (C8) -/

/-- The C8 input: a GCP create request with all optional fields set. -/
def roundTripGCPRequest : GCPBillingDatasourceRequest :=
  ⟨"GCP Billing", "project.dataset.table", some true, some "2025-01-01", some "2025-12-31"⟩

/-- A response carrying the same fields as `roundTripGCPRequest` under the
snake_case naming convention. -/
def snakeCaseGCPResponseBody : BodyWire :=
  BodyWire.jsonVal (JSON.obj
    [("id", JSON.str "gcp-ds-1"), ("type", JSON.str "GCP"),
     ("name", JSON.str "GCP Billing"),
     ("bq_uri", JSON.str "project.dataset.table"),
     ("is_detailed_billing", JSON.bool true),
     ("start_date", JSON.str "2025-01-01"),
     ("end_date", JSON.str "2025-12-31")])

/-- A response echoing a GCP request's fields under the camelCase (API)
naming convention, with a server-assigned id. -/
def gcpEchoResponseBody (dsID : String) (req : GCPBillingDatasourceRequest) : BodyWire :=
  BodyWire.jsonVal (JSON.obj
    ([("id", JSON.str dsID), ("type", JSON.str billingDatasourceTypeGCP),
      ("name", JSON.str req.Name), ("bqUri", JSON.str req.BQURI)]
      ++ optBoolField "isDetailedBilling" req.IsDetailedBilling
      ++ optStrField "startDate" req.StartDate
      ++ optStrField "endDate" req.EndDate))

/-- A response echoing an AWS request's fields under the camelCase (API)
naming convention, with a server-assigned id. -/
def awsEchoResponseBody (dsID : String) (req : AWSBillingDatasourceRequest) : BodyWire :=
  BodyWire.jsonVal (JSON.obj
    ([("id", JSON.str dsID), ("type", JSON.str billingDatasourceTypeAWS),
      ("name", JSON.str req.Name), ("bucketName", JSON.str req.BucketName),
      ("roleArn", JSON.str req.RoleARN), ("prefix", JSON.str req.BucketPrefix)]
      ++ optBoolField "eksSplitDataEnabled" req.EKSSplitDataEnabled
      ++ optStrField "startDate" req.StartDate
      ++ optStrField "endDate" req.EndDate
      ++ optBoolField "eksSplit" req.EKSSplit))

/-- Claim C8 counterexample: with all optional fields set in the input,
decoding a response that carries the same fields under the snake_case
naming convention does not reproduce the input — the optional fields (and
the bq uri) decode as absent, since the current response decoders accept
only the camelCase keys. -/
theorem roundTrip_snakeCase_counterexample :
    roundTripGCPRequest.StartDate = some "2025-01-01"
    ∧ roundTripGCPRequest.IsDetailedBilling = some true
    ∧ bodyUnmarshal unmarshalGCPResponse snakeCaseGCPResponseBody =
        some ⟨"gcp-ds-1", "GCP", none, "GCP Billing", "", none, none, none⟩
    ∧ (bodyUnmarshal unmarshalGCPResponse snakeCaseGCPResponseBody).map
        (fun out => out.toGCPBillingDatasource.StartDate) = some none := by
  exact ⟨rfl, rfl, rfl, rfl⟩

/-- Claim C8 (amended): constructing a create/validate request with any
choice of optional fields, serializing it, then decoding a response
containing the same fields under the camelCase (API) naming convention —
the only convention the current datasource response decoders accept —
yields an object equal field-for-field to the input, with unset optional
fields remaining absent (`none`, not false/empty) after decoding; and an
optional field left unset by the caller is absent from the serialized
wire payload. -/
theorem roundTrip_camelCase (dsID : String)
    (reqG : GCPBillingDatasourceRequest) (reqA : AWSBillingDatasourceRequest) :
    ((bodyUnmarshal unmarshalGCPResponse (gcpEchoResponseBody dsID reqG)).map
        gcpBillingDatasourceAPIResponse.toGCPBillingDatasource =
      some ⟨dsID, billingDatasourceTypeGCP, none, reqG.Name, reqG.BQURI,
        reqG.IsDetailedBilling, reqG.StartDate, reqG.EndDate⟩)
    ∧ ((bodyUnmarshal unmarshalAWSResponse (awsEchoResponseBody dsID reqA)).map
        awsBillingDatasourceAPIResponse.toAWSBillingDatasource =
      some ⟨dsID, billingDatasourceTypeAWS, none, reqA.Name, reqA.BucketName,
        reqA.RoleARN, reqA.BucketPrefix, reqA.EKSSplitDataEnabled, reqA.StartDate,
        reqA.EndDate, reqA.EKSSplit⟩)
    ∧ (("isDetailedBilling" ∈ objKeys (marshalGCPAPIRequest reqG.toAPIRequest) ↔
          reqG.IsDetailedBilling ≠ none)
      ∧ ("startDate" ∈ objKeys (marshalGCPAPIRequest reqG.toAPIRequest) ↔
          reqG.StartDate ≠ none)
      ∧ ("endDate" ∈ objKeys (marshalGCPAPIRequest reqG.toAPIRequest) ↔
          reqG.EndDate ≠ none))
    ∧ (("eksSplitDataEnabled" ∈ objKeys (marshalAWSAPIRequest reqA.toAPIRequest) ↔
          reqA.EKSSplitDataEnabled ≠ none)
      ∧ ("startDate" ∈ objKeys (marshalAWSAPIRequest reqA.toAPIRequest) ↔
          reqA.StartDate ≠ none)
      ∧ ("endDate" ∈ objKeys (marshalAWSAPIRequest reqA.toAPIRequest) ↔
          reqA.EndDate ≠ none)
      ∧ ("eksSplit" ∈ objKeys (marshalAWSAPIRequest reqA.toAPIRequest) ↔
          reqA.EKSSplit ≠ none)) := by
  obtain ⟨nameG, bq, idb, sdG, edG⟩ := reqG
  obtain ⟨nameA, bucket, role, pfx, eks, sdA, edA, eksSplit⟩ := reqA
  refine ⟨?_, ?_, ?_, ?_⟩
  · rcases idb with _ | b <;> rcases sdG with _ | sd <;> rcases edG with _ | ed <;>
      simp [gcpEchoResponseBody, bodyUnmarshal, unmarshalGCPResponse, optStrField,
        optBoolField, gcpResponseStep, assignString, assignOptString, assignOptBool,
        gcpBillingDatasourceAPIResponseZero,
        gcpBillingDatasourceAPIResponse.toGCPBillingDatasource,
        billingDatasourceTypeGCP]
  · rcases eks with _ | b1 <;> rcases sdA with _ | sd <;> rcases edA with _ | ed <;>
      rcases eksSplit with _ | b2 <;>
      simp [awsEchoResponseBody, bodyUnmarshal, unmarshalAWSResponse, optStrField,
        optBoolField, awsResponseStep, assignString, assignOptString, assignOptBool,
        awsBillingDatasourceAPIResponseZero,
        awsBillingDatasourceAPIResponse.toAWSBillingDatasource,
        billingDatasourceTypeAWS]
  · refine ⟨?_, ?_, ?_⟩ <;>
      rcases idb with _ | b <;> rcases sdG with _ | sd <;> rcases edG with _ | ed <;>
        simp [marshalGCPAPIRequest, GCPBillingDatasourceRequest.toAPIRequest,
          optStrField, optBoolField, objKeys]
  · refine ⟨?_, ?_, ?_, ?_⟩ <;>
      rcases eks with _ | b1 <;> rcases sdA with _ | sd <;> rcases edA with _ | ed <;>
        rcases eksSplit with _ | b2 <;>
        simp [marshalAWSAPIRequest, AWSBillingDatasourceRequest.toAPIRequest,
          optStrField, optBoolField, objKeys]
